import Mathlib

/-!
Verification of the sagemaker-genai-hosting-examples repository.

This file gives a shallow embedding, in Lean, of the notebook code that the
specification describes: the status-polling loops, the streaming-response
parsing loops, the exception handlers, the cleanup cells, and the
create/delete call sequences of each notebook.  The external platform
(describe calls, invoke calls, the JSON decoder) is abstracted as explicit
function parameters; everything the notebooks themselves compute is embedded
faithfully from the source.
-/

namespace SMHosting

/-! ## Status-polling loops

The scale-to-zero notebook
(src/scale-to-zero-endpoint/llama3-8b-scale-to-zero-autoscaling.ipynb)
contains three polling loops with the identical shape (lines 194-201,
736-744 and 826-834):

  while True:
      desc = sagemaker_client.describe_endpoint(EndpointName=endpoint_name)
      status = desc["EndpointStatus"]
      print(status)
      sys.stdout.flush()
      if status in ["InService", "Failed"]:
          break
      time.sleep(30)

(the second and third loops call describe_inference_component and read
desc["InferenceComponentStatus"] instead).  The external describe call is
abstracted as a sequence `statuses : Nat → String`, with `statuses i` the
status string observed by the i-th describe call.  The while-loop is
embedded with a fuel parameter: `none` means the loop performed `fuel`
iterations without breaking. -/

/-- The break condition of the polling loops: `status in ["InService", "Failed"]`. -/
def pollTerminal (status : String) : Bool :=
  status == "InService" || status == "Failed"

/-- One polling loop, starting at observation index `i` with `fuel` remaining
iterations.  Returns the index and the status at which the loop breaks, or
`none` if the fuel is exhausted without the break condition holding. -/
def pollLoopAux (statuses : Nat → String) : Nat → Nat → Option (Nat × String)
  | 0, _ => none
  | fuel + 1, i =>
      if pollTerminal (statuses i) then some (i, statuses i)
      else pollLoopAux statuses fuel (i + 1)

/-- The polling loop started at its first describe call. -/
def pollLoop (statuses : Nat → String) (fuel : Nat) : Option (Nat × String) :=
  pollLoopAux statuses fuel 0

/-- Observable events of one polling-loop iteration: the describe call, the
print of the status, and the fixed sleep. -/
inductive PollEvent where
  | describe (status : String)
  | printStatus (status : String)
  | sleep (seconds : Nat)
deriving DecidableEq, Repr

/-- The trace of effects of the polling loop: each iteration performs a
describe call and a print; a non-terminal status is followed by
`time.sleep(30)` and the next iteration. -/
def pollTraceAux (statuses : Nat → String) : Nat → Nat → List PollEvent
  | 0, _ => []
  | fuel + 1, i =>
      PollEvent.describe (statuses i) :: PollEvent.printStatus (statuses i) ::
        (if pollTerminal (statuses i) then []
         else PollEvent.sleep 30 :: pollTraceAux statuses fuel (i + 1))

/-- The effect trace of the polling loop from its first describe call. -/
def pollTrace (statuses : Nat → String) (fuel : Nat) : List PollEvent :=
  pollTraceAux statuses fuel 0

/-- Recognizes sleep events in a polling trace. -/
def PollEvent.isSleep : PollEvent → Bool
  | PollEvent.sleep _ => true
  | _ => false

/-- Recognizes describe events in a polling trace. -/
def PollEvent.isDescribe : PollEvent → Bool
  | PollEvent.describe _ => true
  | _ => false

/-! ## A model of Python JSON values and of the Python operations the
notebooks apply to them.

`json.loads` returns Python values built from dicts, lists, strings,
numbers, booleans and None.  Non-integral numeric literals occurring in the
notebooks (0.9, 0.6, ...) are carried verbatim as `numLit`; the notebooks
never compute with them. -/

/-- A decoded JSON value, as produced by `json.loads`. -/
inductive JValue where
  | null
  | bool (b : Bool)
  | num (n : Int)
  | numLit (lit : String)
  | str (s : String)
  | arr (elems : List JValue)
  | obj (fields : List (String × JValue))

mutual

/-- Boolean equality on decoded JSON values. -/
def JValue.beq : JValue → JValue → Bool
  | JValue.null, JValue.null => true
  | JValue.bool a, JValue.bool b => a == b
  | JValue.num a, JValue.num b => a == b
  | JValue.numLit a, JValue.numLit b => a == b
  | JValue.str a, JValue.str b => a == b
  | JValue.arr a, JValue.arr b => JValue.beqList a b
  | JValue.obj a, JValue.obj b => JValue.beqFields a b
  | _, _ => false

/-- Boolean equality on lists of decoded JSON values. -/
def JValue.beqList : List JValue → List JValue → Bool
  | [], [] => true
  | x :: xs, y :: ys => JValue.beq x y && JValue.beqList xs ys
  | _, _ => false

/-- Boolean equality on dict field lists. -/
def JValue.beqFields : List (String × JValue) → List (String × JValue) → Bool
  | [], [] => true
  | (k1, v1) :: xs, (k2, v2) :: ys => k1 == k2 && JValue.beq v1 v2 && JValue.beqFields xs ys
  | _, _ => false

end

instance : BEq JValue := ⟨JValue.beq⟩

/-- Python exceptions that the embedded notebook code can raise. -/
inductive PyExc where
  | jsonDecodeError (msg : String)
  | keyError (key : String)
  | typeError
  | attributeError
  | indexError
  | valueError (msg : String)
deriving DecidableEq, Repr

/-- The rendering `str(e)` used when an exception is printed by an
`except ... as e` handler. -/
def PyExc.message : PyExc → String
  | PyExc.jsonDecodeError m => m
  | PyExc.keyError k => k
  | PyExc.typeError => "TypeError"
  | PyExc.attributeError => "AttributeError"
  | PyExc.indexError => "list index out of range"
  | PyExc.valueError m => m

/-- Python `key in value` for a string key: key containment for a dict,
value membership for a list, substring test for a string, TypeError
otherwise. -/
def pyInStr (key : String) : JValue → Except PyExc Bool
  | JValue.obj fields => Except.ok (fields.any (fun p => p.1 == key))
  | JValue.arr elems => Except.ok (elems.any (fun v => v == JValue.str key))
  | JValue.str s => Except.ok (((s.splitOn key).length) > 1)
  | _ => Except.error PyExc.typeError

/-- Python `value[key]` for a string key: dict lookup raising KeyError for a
missing key, TypeError on any non-dict. -/
def pySubscriptStr (v : JValue) (key : String) : Except PyExc JValue :=
  match v with
  | JValue.obj fields =>
      match fields.lookup key with
      | some x => Except.ok x
      | none => Except.error (PyExc.keyError key)
  | _ => Except.error PyExc.typeError

/-- Python `value[i]` for a non-negative integer index: list indexing
raising IndexError out of range, TypeError on non-sequences. -/
def pyIndex (v : JValue) (i : Nat) : Except PyExc JValue :=
  match v with
  | JValue.arr elems =>
      match elems.get? i with
      | some x => Except.ok x
      | none => Except.error PyExc.indexError
  | JValue.str s =>
      match s.data.get? i with
      | some c => Except.ok (JValue.str (String.mk [c]))
      | none => Except.error PyExc.indexError
  | _ => Except.error PyExc.typeError

/-- Python `value.get(key, default)`: defaulting dict lookup; any non-dict
value has no `get` attribute and raises AttributeError. -/
def pyGet (v : JValue) (key : String) (default : JValue) : Except PyExc JValue :=
  match v with
  | JValue.obj fields => Except.ok ((fields.lookup key).getD default)
  | _ => Except.error PyExc.attributeError

/-- Python `len(value)`: length of a string, list or dict, TypeError
otherwise. -/
def pyLen (v : JValue) : Except PyExc Nat :=
  match v with
  | JValue.str s => Except.ok s.length
  | JValue.arr elems => Except.ok elems.length
  | JValue.obj fields => Except.ok fields.length
  | _ => Except.error PyExc.typeError

/-- Python truthiness of a decoded JSON value (`if content:`). -/
def pyTruthy : JValue → Bool
  | JValue.null => false
  | JValue.bool b => b
  | JValue.num n => n != 0
  | JValue.numLit _ => true
  | JValue.str s => !s.isEmpty
  | JValue.arr elems => !elems.isEmpty
  | JValue.obj fields => !fields.isEmpty

/-- Python `d[key] = value` on a dict: replaces the binding of `key` or
appends it; TypeError on a non-dict. -/
def pySetKey (v : JValue) (key : String) (newVal : JValue) : Except PyExc JValue :=
  match v with
  | JValue.obj fields =>
      if fields.any (fun p => p.1 == key) then
        Except.ok (JValue.obj (fields.map (fun p => if p.1 == key then (p.1, newVal) else p)))
      else
        Except.ok (JValue.obj (fields ++ [(key, newVal)]))
  | _ => Except.error PyExc.typeError

/-- Python `s.startswith(pre)`. -/
def strStartsWith (s pre : String) : Bool :=
  pre.data.isPrefixOf s.data

/-! ## Token streaming loop of the Llama 3.3 notebook (src/unnamed/part_000,
lines 235-247)

  for event in response["Body"]:
      line = event["PayloadPart"]["Bytes"].decode()
      if line.startswith("data: "):
          try:
              chunk = json.loads(line[6:])  # Skip the "data: " prefix
              if "token" in chunk:
                  token_count += 1
                  if not first_token_received:
                      ttft = time.time() - start_time
                      first_token_received = True
                  print(chunk["token"]["text"], end="", flush=True)
          except json.JSONDecodeError:
              continue

`json.loads` is abstracted as a parameter `parse` whose error case stands
for a raised json.JSONDecodeError.  `event["PayloadPart"]["Bytes"].decode()`
is abstracted by taking the loop input as the list of decoded line strings.
Wall-clock reads (`ttft`) are not modelled; printed values are recorded in
order. -/

/-- The mutable state of the token streaming loop of part_000. -/
structure StreamState where
  firstTokenReceived : Bool
  tokenCount : Nat
  printed : List JValue

/-- The body of the part_000 token streaming loop for one decoded line,
returning the updated state, or the exception the iteration raises.  A parse
failure is caught by the `except json.JSONDecodeError: continue` handler and
leaves the state untouched. -/
def processLine (parse : String → Except String JValue) (st : StreamState)
    (line : String) : Except PyExc StreamState :=
  if strStartsWith line "data: " then
    match parse (line.drop 6) with
    | Except.error _ => Except.ok st
    | Except.ok chunk =>
        match pyInStr "token" chunk with
        | Except.error e => Except.error e
        | Except.ok false => Except.ok st
        | Except.ok true =>
            match (pySubscriptStr chunk "token").bind (fun t => pySubscriptStr t "text") with
            | Except.error e => Except.error e
            | Except.ok text =>
                Except.ok { firstTokenReceived := true,
                            tokenCount := st.tokenCount + 1,
                            printed := st.printed ++ [text] }
  else Except.ok st

/-- The full part_000 token streaming loop over the decoded event lines.  An
uncaught exception of an iteration aborts the loop (and the cell). -/
def processStream (parse : String → Except String JValue) :
    StreamState → List String → Except PyExc StreamState
  | st, [] => Except.ok st
  | st, line :: rest =>
      match processLine parse st line with
      | Except.ok st1 => processStream parse st1 rest
      | Except.error e => Except.error e

/-- The initial state of the part_000 streaming cell:
`first_token_received = False`, `token_count = 0`, nothing printed yet. -/
def initialStreamState : StreamState :=
  { firstTokenReceived := false, tokenCount := 0, printed := [] }

/-! ## Streaming postprocessing loop of the NIM notebooks
(src/unnamed/part_004 lines 506-535 and src/unnamed/part_005 lines 491-520;
the two cells are textually identical)

  event_stream = response["Body"]
  accumulated_data = ""
  start_marker = "data:"
  end_marker = the string \x22finish_reason\x22:null followed by brace bracket brace

  for event in event_stream:
      try:
          payload = event.get("PayloadPart", \x7b\x7d).get("Bytes", b"")
          if payload:
              data_str = payload.decode("utf-8")
              accumulated_data += data_str
              while start_marker in accumulated_data and end_marker in accumulated_data:
                  start_idx = accumulated_data.find(start_marker)
                  end_idx = accumulated_data.find(end_marker) + len(end_marker)
                  full_response = accumulated_data[start_idx + len(start_marker):end_idx]
                  accumulated_data = accumulated_data[end_idx:]
                  try:
                      data = json.loads(full_response)
                      content = data.get("choices", [\x7b\x7d])[0].get("delta", \x7b\x7d).get("content", "")
                      if content:
                          print(content, end="", flush=True)
                  except json.JSONDecodeError:
                      continue
      except Exception as e:
          print(f"\nError processing event: \x7be\x7d", flush=True)
          continue

String search and slicing are embedded below on the character lists of the
strings; the event payloads are taken as already-decoded strings. -/

/-- First index at which `pat` occurs in `s` (Python `s.find(pat)` when the
result is non-negative; `none` stands for -1, absence). -/
def listFindAux (pat : List Char) : List Char → Nat → Option Nat
  | [], i => if pat.isEmpty then some i else none
  | c :: rest, i =>
      if pat.isPrefixOf (c :: rest) then some i
      else listFindAux pat rest (i + 1)

/-- Python `s.find(pat)` (absence reported as `none`). -/
def strFind (s pat : String) : Option Nat :=
  listFindAux pat.data s.data 0

/-- Python `pat in s` for strings: substring containment. -/
def strContainsSub (s pat : String) : Bool :=
  (strFind s pat).isSome

/-- Python slice `s[a:b]` for non-negative bounds. -/
def strSlice (s : String) (a b : Nat) : String :=
  String.mk ((s.data.drop a).take (b - a))

/-- Python slice `s[a:]` for a non-negative bound. -/
def strDropFrom (s : String) (a : Nat) : String :=
  String.mk (s.data.drop a)


/-- The literal `start_marker` of the NIM streaming postprocessing loops. -/
def startMarker : String := "data:"

/-- The literal `end_marker` of the NIM streaming postprocessing loops:
the string `"finish_reason":null` followed by closing brace, bracket,
brace. -/
def endMarker : String := "\"finish_reason\":null\x7d]\x7d"

/-- The loop condition
`start_marker in accumulated_data and end_marker in accumulated_data`. -/
def accumCond (accumulated : String) : Bool :=
  strContainsSub accumulated startMarker && strContainsSub accumulated endMarker

/-- The mutable state of the NIM streaming postprocessing cell. -/
structure AccumState where
  accumulated : String
  printed : List JValue

/-- The chain
`data.get("choices", [...])[0].get("delta", ...).get("content", "")`. -/
def extractContent (data : JValue) : Except PyExc JValue := do
  let choices ← pyGet data "choices" (JValue.arr [JValue.obj []])
  let first ← pyIndex choices 0
  let delta ← pyGet first "delta" (JValue.obj [])
  pyGet delta "content" (JValue.str "")

/-- One iteration of the inner while loop of the NIM postprocessing cell.
The accumulated data is advanced past the extracted fragment before the
try block runs, so the advance persists whatever the try block does; a parse
failure is caught (`except json.JSONDecodeError: continue`) while an
exception of the content extraction is returned to the caller. -/
def accumIter (parse : String → Except String JValue) (st : AccumState) :
    AccumState × Option PyExc :=
  match strFind st.accumulated startMarker, strFind st.accumulated endMarker with
  | some startIdx, some endFound =>
      let endIdx := endFound + endMarker.length
      let fullResponse := strSlice st.accumulated (startIdx + startMarker.length) endIdx
      let st1 : AccumState := { accumulated := strDropFrom st.accumulated endIdx,
                                printed := st.printed }
      (match parse fullResponse with
       | Except.error _ => (st1, none)
       | Except.ok data =>
           match extractContent data with
           | Except.error e => (st1, some e)
           | Except.ok content =>
               (if pyTruthy content then
                  { st1 with printed := st1.printed ++ [content] }
                else st1, none))
  | _, _ => (st, none)

/-- The inner while loop of the NIM postprocessing cell, with fuel bounding
the number of iterations.  An uncaught exception of an iteration ends the
loop, carrying the state mutated so far. -/
def processAccum (parse : String → Except String JValue) :
    Nat → AccumState → AccumState × Option PyExc
  | 0, st => (st, none)
  | fuel + 1, st =>
      if accumCond st.accumulated then
        match accumIter parse st with
        | (st1, none) => processAccum parse fuel st1
        | (st1, some e) => (st1, some e)
      else (st, none)

/-- The body of the outer `for event in event_stream` loop for one decoded
payload string: the payload is appended to the accumulated data and the
inner while loop runs; `except Exception as e` catches any exception the
iteration raises, prints an error message and continues the outer loop, so
the outer loop body never raises. -/
def processEvent (parse : String → Except String JValue) (fuel : Nat)
    (st : AccumState) (payload : String) : AccumState :=
  if payload.isEmpty then st
  else
    let st1 : AccumState := { st with accumulated := st.accumulated ++ payload }
    match processAccum parse fuel st1 with
    | (st2, none) => st2
    | (st2, some e) =>
        { st2 with printed := st2.printed ++
            [JValue.str ("\nError processing event: " ++ PyExc.message e)] }

/-! ## create_payload and create_eval_files of the quantization notebook
(src/unnamed/part_003, lines 270-310)

  def create_payload(prompt: str, parameters: dict = ...) -> dict:
      if len(prompt) == 0:
          raise ValueError("Please provide a non-empty prompt.")
      return \x7b "inputs": prompt, "parameters": parameters \x7d

  def create_eval_files(endpoint_name: str, model_outputs_file: str,
                        input_file: str = "trex_sample_subset.jsonl") -> str:
      try:
          with jsonlines.open(input_file) as input_fh, jsonlines.open(model_outputs_file, "w") as output_fh:
              for line in input_fh:
                  if "question" in line:
                      question = line["question"]
                      payload = create_payload(question)
                      response = runtime_client.invoke_endpoint(EndpointName=endpoint_name, Body=json.dumps(payload), ContentType=content_type)
                      model_output = json.loads(response["Body"].read().decode())["generated_text"]
                      line["model_output"] = model_output
                      output_fh.write(line)
      except Exception as e:
              print(f"An error occurred: \x7be\x7d")
      print(f"Created Model Outputs File: \x7bmodel_outputs_file\x7d")

The function body has no return statement, so every call returns None.
The network round trip (invoke_endpoint, Body read, decode) is abstracted
as `invokeEndpoint`, taking the payload value and returning the response
body string; `json.loads` of that body is abstracted as `parse`. -/

/-- The default `parameters` of create_payload:
`\x7b"max_new_tokens": 128, "top_p": 0.9, "temperature": 0.6\x7d`. -/
def defaultEvalParameters : JValue :=
  JValue.obj [("max_new_tokens", JValue.num 128),
              ("top_p", JValue.numLit "0.9"),
              ("temperature", JValue.numLit "0.6")]

/-- create_payload: raises ValueError on an empty prompt, otherwise the
payload dict.  The prompt comes from a decoded JSON line, so `len` is the
Python `len` on that value. -/
def create_payload (prompt : JValue) : Except PyExc JValue := do
  let n ← pyLen prompt
  if n == 0 then Except.error (PyExc.valueError "Please provide a non-empty prompt.")
  else Except.ok (JValue.obj [("inputs", prompt), ("parameters", defaultEvalParameters)])

/-- The `for line in input_fh` loop inside the try block of
create_eval_files: accumulates the lines written to the output file and
returns the first exception raised, if any. -/
def evalLoop (invokeEndpoint : String → JValue → Except PyExc String)
    (parse : String → Except String JValue) (endpoint_name : String) :
    List JValue → List JValue → List JValue × Option PyExc
  | written, [] => (written, none)
  | written, line :: rest =>
      match pyInStr "question" line with
      | Except.error e => (written, some e)
      | Except.ok false => evalLoop invokeEndpoint parse endpoint_name written rest
      | Except.ok true =>
          match (do
            let question ← pySubscriptStr line "question"
            let payload ← create_payload question
            let body ← invokeEndpoint endpoint_name payload
            let parsed ← (parse body).mapError PyExc.jsonDecodeError
            let modelOutput ← pySubscriptStr parsed "generated_text"
            pySetKey line "model_output" modelOutput : Except PyExc JValue) with
          | Except.error e => (written, some e)
          | Except.ok outLine =>
              evalLoop invokeEndpoint parse endpoint_name (written ++ [outLine]) rest

/-- What a call of create_eval_files produces: the lines written to the
model-outputs file, the messages printed, and the Python return value. -/
structure EvalFilesResult where
  written : List JValue
  printedMessages : List String
  returnValue : Option String

/-- create_eval_files.  The `except Exception as e` handler catches every
exception of the loop and prints a message; the completion message is
printed afterwards in every case; the function has no return statement, so
the returned value is Python None (`none`). -/
def create_eval_files (invokeEndpoint : String → JValue → Except PyExc String)
    (parse : String → Except String JValue) (endpoint_name : String)
    (model_outputs_file : String) (inputLines : List JValue) : EvalFilesResult :=
  let result := evalLoop invokeEndpoint parse endpoint_name [] inputLines
  let errorMessages :=
    match result.2 with
    | some e => ["An error occurred: " ++ PyExc.message e]
    | none => []
  { written := result.1,
    printedMessages := errorMessages ++ ["Created Model Outputs File: " ++ model_outputs_file],
    returnValue := none }

/-- The binding `quantized_model_output_file = create_eval_files(endpoint_name
= quantized_predictor.endpoint_name, model_outputs_file =
"quantized_model_outputs.jsonl")` (part_003 line 309); the endpoint name is a
runtime value and stays a parameter. -/
def quantized_model_output_file (invokeEndpoint : String → JValue → Except PyExc String)
    (parse : String → Except String JValue) (endpointName : String)
    (inputLines : List JValue) : Option String :=
  (create_eval_files invokeEndpoint parse endpointName
    "quantized_model_outputs.jsonl" inputLines).returnValue

/-- The binding `base_model_output_file = create_eval_files(endpoint_name =
base_predictor.endpoint_name, model_outputs_file =
"base_model_outputs.jsonl")` (part_003 line 310). -/
def base_model_output_file (invokeEndpoint : String → JValue → Except PyExc String)
    (parse : String → Except String JValue) (endpointName : String)
    (inputLines : List JValue) : Option String :=
  (create_eval_files invokeEndpoint parse endpointName
    "base_model_outputs.jsonl" inputLines).returnValue

/-! ## The execution-role fallback of the Llama 3.3 notebook
(src/unnamed/part_000, lines 50-55)

  try:
      role = sagemaker.get_execution_role()
  except ValueError:
      iam = boto3.client("iam")
      role = iam.get_role(RoleName="sagemaker_execution_role")["Role"]["Arn"]

The two external calls are abstracted: `getExecutionRole` is the outcome of
sagemaker.get_execution_role() and `iamRoleArn` the ARN the IAM lookup
returns. -/

/-- The role-resolution cell of part_000: a ValueError from
get_execution_role is caught and the role is taken from the IAM fallback;
any other exception propagates. -/
def resolveRole (getExecutionRole : Except PyExc String) (iamRoleArn : String) :
    Except PyExc String :=
  match getExecutionRole with
  | Except.ok r => Except.ok r
  | Except.error (PyExc.valueError _) => Except.ok iamRoleArn
  | Except.error e => Except.error e

/-! ## The autoscaling cleanup cell of the scale-to-zero notebook
(src/scale-to-zero-endpoint/llama3-8b-scale-to-zero-autoscaling.ipynb,
lines 893-926)

  try:
      aas_client.deregister_scalable_target(...)
      print(f"Scalable target for [b]\x7bresource_id\x7d[/b] deregistered. ✅")
  except aas_client.exceptions.ObjectNotFoundException:
      print(f"Scalable target for [b]\x7bresource_id\x7d[/b] not found!.")
  print("---" * 10)
  try:
      cloudwatch_client.delete_alarms(AlarmNames=[step_scaling_alarm_name])
      print(f"Deleted CloudWatch step scaling scale-out alarm [b]\x7bstep_scaling_alarm_name\x7d ✅")
  except cloudwatch_client.exceptions.ResourceNotFoundException:
      print(f"CloudWatch scale-out alarm [b]\x7bstep_scaling_alarm_name\x7d[/b] not found.")
  print("---" * 10)
  try:
      aas_client.delete_scaling_policy(...)
      print(f"Deleted scaling policy [i green]\x7bstep_scaling_policy_name\x7d ✅")
  except aas_client.exceptions.ObjectNotFoundException:
      print(f"Scaling policy [i]\x7bstep_scaling_policy_name\x7d[/i] not found.")

Each remote call is abstracted by its outcome. -/

/-- The outcome of one cleanup API call: success, one of the two modelled
not-found exceptions, or some other exception (carried with a tag). -/
inductive CallOutcome where
  | ok
  | objectNotFound
  | resourceNotFound
  | otherError (tag : String)
deriving DecidableEq, Repr

/-- What running the cleanup cell produces: which of the three calls were
attempted, what was printed, and the exception leaving the cell, if any. -/
structure CleanupResult where
  attempted : List String
  printed : List String
  raised : Option CallOutcome
deriving DecidableEq, Repr

/-- The `"---" * 10` separator printed between the cleanup blocks. -/
def cleanupSeparator : String := "------------------------------"

/-- The autoscaling cleanup cell.  `r1`, `r2`, `r3` are the outcomes of
deregister_scalable_target, delete_alarms and delete_scaling_policy.  The
first and third blocks catch only ObjectNotFoundException, the second only
ResourceNotFoundException; an uncaught exception aborts the cell at that
point. -/
def autoscalingCleanupCell (resource_id step_scaling_alarm_name step_scaling_policy_name : String)
    (r1 r2 r3 : CallOutcome) : CleanupResult :=
  let block1 :=
    match r1 with
    | CallOutcome.ok =>
        Except.ok ["Scalable target for [b]" ++ resource_id ++ "[/b] deregistered. ✅"]
    | CallOutcome.objectNotFound =>
        Except.ok ["Scalable target for [b]" ++ resource_id ++ "[/b] not found!."]
    | e => Except.error e
  match block1 with
  | Except.error e => { attempted := ["deregister_scalable_target"], printed := [], raised := some e }
  | Except.ok printed1 =>
    let block2 :=
      match r2 with
      | CallOutcome.ok =>
          Except.ok ["Deleted CloudWatch step scaling scale-out alarm [b]" ++
            step_scaling_alarm_name ++ " ✅"]
      | CallOutcome.resourceNotFound =>
          Except.ok ["CloudWatch scale-out alarm [b]" ++ step_scaling_alarm_name ++ "[/b] not found."]
      | e => Except.error e
    match block2 with
    | Except.error e =>
        { attempted := ["deregister_scalable_target", "delete_alarms"],
          printed := printed1 ++ [cleanupSeparator], raised := some e }
    | Except.ok printed2 =>
      let block3 :=
        match r3 with
        | CallOutcome.ok =>
            Except.ok ["Deleted scaling policy [i green]" ++ step_scaling_policy_name ++ " ✅"]
        | CallOutcome.objectNotFound =>
            Except.ok ["Scaling policy [i]" ++ step_scaling_policy_name ++ "[/i] not found."]
        | e => Except.error e
      match block3 with
      | Except.error e =>
          { attempted := ["deregister_scalable_target", "delete_alarms", "delete_scaling_policy"],
            printed := printed1 ++ [cleanupSeparator] ++ printed2 ++ [cleanupSeparator],
            raised := some e }
      | Except.ok printed3 =>
          { attempted := ["deregister_scalable_target", "delete_alarms", "delete_scaling_policy"],
            printed := printed1 ++ [cleanupSeparator] ++ printed2 ++ [cleanupSeparator] ++ printed3,
            raised := none }

/-! ## Create and delete call sequences of the notebooks

Each notebook issues a sequence of resource-creating calls and a sequence of
resource-deleting calls.  A resource is identified below by its kind and by
the notebook variable holding its name. -/

/-- A remote resource named by a notebook call. -/
inductive Res where
  | model (tag : String)
  | endpointConfig (tag : String)
  | endpoint (tag : String)
  | inferenceComponent (tag : String)
  | scalableTarget (tag : String)
  | scalingPolicy (tag : String)
  | alarm (tag : String)
deriving DecidableEq, Repr

/-- Resources created by the multi-adapter notebook
(src/genai-recipes/Multi-LoRA-Adapters/SM-Managed-Multi-Adapter-Deployment/
multi-adapter-sm-ic-hosting.ipynb), in source order: create_model (line
258), create_endpoint_config (line 307), create_endpoint (line 368),
create_inference_component for the base model (line 415) and for the ECTSum
adapter (line 529). -/
def multiAdapterCreates : List Res :=
  [Res.model "model_name",
   Res.endpointConfig "endpoint_config_name",
   Res.endpoint "endpoint_name",
   Res.inferenceComponent "base_inference_component_name",
   Res.inferenceComponent "ic_ectsum_name"]

/-- Resources deleted by the multi-adapter notebook cleanup cells, in source
order: delete_inference_component of the adapter (line 861) and of the base
model (line 879), then delete_endpoint, delete_endpoint_config,
delete_model (lines 899-901). -/
def multiAdapterDeletes : List Res :=
  [Res.inferenceComponent "ic_ectsum_name",
   Res.inferenceComponent "base_inference_component_name",
   Res.endpoint "endpoint_name",
   Res.endpointConfig "endpoint_config_name",
   Res.model "model_name"]

/-- Resources created by the scale-to-zero notebook
(src/scale-to-zero-endpoint/llama3-8b-scale-to-zero-autoscaling.ipynb), in
source order: create_endpoint_config (line 128), create_endpoint (line
169), the inference component deployed by final_model.deploy (line 410),
register_scalable_target (line 541), put_scaling_policy of the target
tracking policy (line 575), put_scaling_policy of the step scaling policy
(line 623), put_metric_alarm (line 688). -/
def scaleToZeroCreates : List Res :=
  [Res.endpointConfig "endpoint_config_name",
   Res.endpoint "endpoint_name",
   Res.inferenceComponent "inference_component_name",
   Res.scalableTarget "resource_id",
   Res.scalingPolicy "target_tracking_policy_name",
   Res.scalingPolicy "step_scaling_policy_name",
   Res.alarm "step_scaling_alarm_name"]

/-- Resources deleted (or deregistered) by the scale-to-zero notebook
cleanup cells, in source order: deregister_scalable_target (line 895),
delete_alarms (line 908), delete_scaling_policy of the step scaling policy
(line 918), then delete_inference_component, delete_endpoint,
delete_endpoint_config (lines 946-948). -/
def scaleToZeroDeletes : List Res :=
  [Res.scalableTarget "resource_id",
   Res.alarm "step_scaling_alarm_name",
   Res.scalingPolicy "step_scaling_policy_name",
   Res.inferenceComponent "inference_component_name",
   Res.endpoint "endpoint_name",
   Res.endpointConfig "endpoint_config_name"]

/-- The resource created by the Llama 3.3 notebook (src/unnamed/part_000):
the endpoint brought up by `predictor = huggingface_model.deploy(...)`
(line 85). -/
def part000Creates : List Res :=
  [Res.endpoint "predictor"]

/-- Resources deleted by the Llama 3.3 notebook cleanup cell
`predictor.delete_endpoint(delete_endpoint_config=True)` (line 266): the
endpoint and, through the flag, its endpoint configuration. -/
def part000Deletes : List Res :=
  [Res.endpoint "predictor", Res.endpointConfig "predictor"]

/-- Resources created by the quantization evaluation notebook
(src/unnamed/part_003): the endpoints brought up by
`base_predictor = base_model.deploy(...)` (line 118) and
`quantized_predictor = optimized_model.deploy(...)` (line 180). -/
def part003Creates : List Res :=
  [Res.endpoint "base_predictor", Res.endpoint "quantized_predictor"]

/-- Resources deleted by the quantization evaluation notebook: it contains
no delete call of any kind; its final cells run fmeval evaluations (lines
361-378). -/
def part003Deletes : List Res := []

/-- Modelled from the spec: the resources created by the NIM Llama3-70B
notebook (src/unnamed/part_004).  Its creation cell is `%run
../base_nim_NVIDIA.ipynb` (line 358), a notebook absent from src/ that
stores the variables sm_model_name, endpoint_config_name and endpoint_name;
the spec describes the shape as issuing declarative API calls to create a
model, an endpoint configuration and an endpoint. -/
def part004CreatesModelled : List Res :=
  [Res.model "sm_model_name",
   Res.endpointConfig "endpoint_config_name",
   Res.endpoint "endpoint_name"]

/-- Resources deleted by the NIM Llama3-70B notebook cleanup cell
(src/unnamed/part_004, lines 556-558), in source order: delete_model,
delete_endpoint_config, delete_endpoint. -/
def part004Deletes : List Res :=
  [Res.model "sm_model_name",
   Res.endpointConfig "endpoint_config_name",
   Res.endpoint "endpoint_name"]

/-- Modelled from the spec: the resources created by the NIM Mixtral 8x7B
notebook (src/unnamed/part_005), whose creation cell likewise runs the
base notebook absent from src/. -/
def part005CreatesModelled : List Res :=
  [Res.model "sm_model_name",
   Res.endpointConfig "endpoint_config_name",
   Res.endpoint "endpoint_name"]

/-- Resources deleted by the NIM Mixtral 8x7B notebook cleanup cell
(src/unnamed/part_005, lines 541-543), in source order: delete_model,
delete_endpoint_config, delete_endpoint. -/
def part005Deletes : List Res :=
  [Res.model "sm_model_name",
   Res.endpointConfig "endpoint_config_name",
   Res.endpoint "endpoint_name"]

/-- Position of a resource in a call sequence (`List.findIdx`; the length of
the list when absent). -/
def resIdx (r : Res) (l : List Res) : Nat :=
  l.findIdx (fun x => x == r)

/-- The model-hosting resources of a notebook (model, endpoint
configuration, endpoint, inference component), as opposed to the
autoscaling resources (scalable target, scaling policies, alarm). -/
def isHostingRes : Res → Bool
  | Res.model _ => true
  | Res.endpointConfig _ => true
  | Res.endpoint _ => true
  | Res.inferenceComponent _ => true
  | _ => false

/-- The cleanup discipline the claim describes: for each pair of resources
created by the notebook, the one created later is deleted earlier; with
every created resource deleted, this says the delete sequence is the exact
reverse of the create sequence. -/
def reverseCleanup (creates deletes : List Res) : Prop :=
  deletes = creates.reverse

instance (creates deletes : List Res) : Decidable (reverseCleanup creates deletes) := by
  unfold reverseCleanup; infer_instance

/-! ## The step scaling policy identifiers of the scale-to-zero notebook

put_scaling_policy (lines 620-641) is issued with

  PolicyName=step_scaling_policy_name, PolicyType="StepScaling",
  ServiceNamespace=service_namespace, ResourceId=resource_id,
  ScalableDimension=scalable_dimension

where service_namespace = "sagemaker", resource_id =
f"inference-component/\x7binference_component_name\x7d" and
scalable_dimension = "sagemaker:inference-component:DesiredCopyCount"
(lines 534-536), while the cleanup delete_scaling_policy (lines 918-923) is
issued with

  PolicyName=step_scaling_policy_name, ServiceNamespace="sagemaker",
  ResourceId=resource_id,
  ScalableDimension="sagemaker:variant:DesiredInstanceCount". -/

/-- The identifier under which Application Auto Scaling stores a scaling
policy. -/
structure ScalingPolicyId where
  serviceNamespace : String
  resourceId : String
  scalableDimension : String
  policyName : String
deriving DecidableEq, Repr

/-- The identifier under which the step scaling policy is created, as a
function of the runtime inference component name. -/
def stepScalingCreateId (icName : String) : ScalingPolicyId :=
  { serviceNamespace := "sagemaker",
    resourceId := "inference-component/" ++ icName,
    scalableDimension := "sagemaker:inference-component:DesiredCopyCount",
    policyName := "Step-scaling-policy-llama3-8b-scale-to-zero-aas-" ++ icName }

/-- The identifier named by the cleanup delete_scaling_policy call, as a
function of the same runtime inference component name. -/
def stepScalingDeleteId (icName : String) : ScalingPolicyId :=
  { serviceNamespace := "sagemaker",
    resourceId := "inference-component/" ++ icName,
    scalableDimension := "sagemaker:variant:DesiredInstanceCount",
    policyName := "Step-scaling-policy-llama3-8b-scale-to-zero-aas-" ++ icName }

/-! ## The adapter re-upload cell of the multi-adapter notebook
(multi-adapter-sm-ic-hosting.ipynb, lines 751-753)

  new_ectsum_adapter_s3_uri = f"s3://\x7bbucket\x7d/lora-adapters/new-ectsum-adapter.tar.gz"

  !aws s3 cp ./adapters/ectsum-adapter.tar.gz \x7bnew_prt_adapter_s3_uri\x7d

A `!` shell command goes through variable expansion
(IPython InteractiveShell.var_expand): each brace-delimited field is
replaced by the value of that expression in the user namespace, and if the
formatting raises (for instance because a name is not bound), the command is
passed to the shell untransformed. -/

/-- A segment of a shell command template: literal text or a
brace-delimited field naming a variable. -/
inductive CmdSeg where
  | lit (text : String)
  | field (name : String)
deriving DecidableEq, Repr

/-- Renders a command template with every field replaced from the
namespace; `none` when some field name is unbound, which is the case in
which the formatter raises. -/
def renderExpanded (ns : List (String × String)) : List CmdSeg → Option String
  | [] => some ""
  | CmdSeg.lit s :: rest => (renderExpanded ns rest).map (fun r => s ++ r)
  | CmdSeg.field n :: rest =>
      match ns.lookup n with
      | some v => (renderExpanded ns rest).map (fun r => v ++ r)
      | none => none

/-- The raw (unexpanded) text of a command template, fields kept as
brace-delimited names. -/
def rawCmd : List CmdSeg → String
  | [] => ""
  | CmdSeg.lit s :: rest => s ++ rawCmd rest
  | CmdSeg.field n :: rest => "\x7b" ++ n ++ "\x7d" ++ rawCmd rest

/-- Modelled from the spec-external IPython runtime:
InteractiveShell.var_expand formats the command against the user namespace
and, when formatting fails, returns the command untransformed rather than
raising. -/
def varExpand (ns : List (String × String)) (cmd : List CmdSeg) : String :=
  match renderExpanded ns cmd with
  | some s => s
  | none => rawCmd cmd

/-- What executing the re-upload cell produces: the namespace after the
cell, the command string handed to the shell, and the exception the cell
raises, if any. -/
structure ShellCellResult where
  ns : List (String × String)
  shellCommand : String
  raised : Option PyExc
deriving DecidableEq, Repr

/-- The command template of the re-upload cell:
`aws s3 cp ./adapters/ectsum-adapter.tar.gz` followed by the field
`new_prt_adapter_s3_uri`. -/
def reuploadCmd : List CmdSeg :=
  [CmdSeg.lit "aws s3 cp ./adapters/ectsum-adapter.tar.gz ",
   CmdSeg.field "new_prt_adapter_s3_uri"]

/-- The re-upload cell: binds new_ectsum_adapter_s3_uri from the bucket
name, then hands the `!aws s3 cp ...` command through variable expansion to
the shell.  Shell commands do not raise on failure, and the expansion does
not raise either, so the cell raises nothing. -/
def reuploadCell (bucket : String) (ns : List (String × String)) : ShellCellResult :=
  let uri := "s3://" ++ bucket ++ "/lora-adapters/new-ectsum-adapter.tar.gz"
  let ns1 := ("new_ectsum_adapter_s3_uri", uri) :: ns
  { ns := ns1, shellCommand := varExpand ns1 reuploadCmd, raised := none }

/-- Every name bound at the top level by any code cell of the multi-adapter
notebook (assignment targets, for-loop targets, import names, and, as an
over-approximation, keyword-argument names written at the start of a
continuation line).  Collected from the source of
multi-adapter-sm-ic-hosting.ipynb. -/
def multiAdapterAssignedNames : List String :=
  ["Body", "ContentType", "EndpointConfigName", "EndpointName", "ExecutionRoleArn",
   "HF_TOKEN", "InferenceComponentName", "ModelName", "PrimaryContainer",
   "ProductionVariants", "RuntimeConfig", "Specification", "VariantName",
   "adapter_response", "base_create_inference_component_response",
   "base_inference_component_name", "base_response", "boto3", "bucket",
   "component_to_invoke", "container_startup_health_check_timeout_in_seconds",
   "create_endpoint_config_response", "create_endpoint_response",
   "create_model_response", "cw_path", "dataset_name", "ectsum_adapter_filename",
   "ectsum_adapter_local_path", "ectsum_adapter_s3_uri", "endpoint_config_name",
   "endpoint_name", "env", "ground_truth_response", "ic_ectsum_name",
   "inference_image_uri", "initial_copy_count", "initial_instance_count",
   "instance_type", "json", "load_dataset", "local_model_path",
   "min_memory_required_in_mb", "model_arn", "model_data_download_timeout_in_seconds",
   "model_id", "model_id_pathsafe", "model_name", "new_ectsum_adapter_s3_uri",
   "number_of_accelerator_devices_required", "prompt", "region", "response_model",
   "role", "s3_model_path", "sagemaker", "sess", "sm_client", "sm_runtime",
   "snapshot_download", "test_dataset", "test_item",
   "update_inference_component_response", "urllib", "variant_name"]

end SMHosting

namespace SMHosting

/-! Helper lemmas about the polling loop. -/

theorem pollLoopAux_some (statuses : Nat → String) :
    ∀ fuel i n st, pollLoopAux statuses fuel i = some (n, st) →
      st = statuses n ∧ pollTerminal (statuses n) = true ∧
        i ≤ n ∧ ∀ j, i ≤ j → j < n → pollTerminal (statuses j) = false := by
  intro fuel
  induction fuel with
  | zero => intro i n st h; simp [pollLoopAux] at h
  | succ fuel ih =>
      intro i n st h
      by_cases hterm : pollTerminal (statuses i) = true
      · simp [pollLoopAux, hterm] at h
        obtain ⟨hn, hst⟩ := h
        subst hn
        refine ⟨hst.symm, hterm, le_refl _, ?_⟩
        intro j hij hji
        exact absurd (lt_of_le_of_lt hij hji) (lt_irrefl i)
      · simp [pollLoopAux, hterm] at h
        obtain ⟨hst, hterm2, hle, hfirst⟩ := ih (i + 1) n st h
        refine ⟨hst, hterm2, le_trans (Nat.le_succ i) hle, ?_⟩
        intro j hij hjn
        rcases Nat.eq_or_lt_of_le hij with heq | hlt
        · subst heq; simpa using hterm
        · exact hfirst j hlt hjn

theorem pollLoopAux_reaches (statuses : Nat → String) :
    ∀ fuel i n, i ≤ n → n < i + fuel → pollTerminal (statuses n) = true →
      (∀ j, i ≤ j → j < n → pollTerminal (statuses j) = false) →
      pollLoopAux statuses fuel i = some (n, statuses n) := by
  intro fuel
  induction fuel with
  | zero => intro i n hin hn _ _; omega
  | succ fuel ih =>
      intro i n hin hn hterm hfirst
      rcases Nat.eq_or_lt_of_le hin with heq | hlt
      · subst heq
        simp [pollLoopAux, hterm]
      · have hnotterm : pollTerminal (statuses i) = false := hfirst i (le_refl i) hlt
        simp [pollLoopAux, hnotterm]
        exact ih (i + 1) n hlt (by omega) hterm (fun j hij hjn => hfirst j (by omega) hjn)

theorem pollLoopAux_never (statuses : Nat → String)
    (hnever : ∀ n, pollTerminal (statuses n) = false) :
    ∀ fuel i, pollLoopAux statuses fuel i = none := by
  intro fuel
  induction fuel with
  | zero => intro i; rfl
  | succ fuel ih => intro i; simp [pollLoopAux, hnever i, ih]

theorem pollTraceAux_sleep_30 (statuses : Nat → String) :
    ∀ fuel i d, PollEvent.sleep d ∈ pollTraceAux statuses fuel i → d = 30 := by
  intro fuel
  induction fuel with
  | zero => intro i d h; simp [pollTraceAux] at h
  | succ fuel ih =>
      intro i d h
      simp only [pollTraceAux, List.mem_cons] at h
      rcases h with h | h | h
      · cases h
      · cases h
      · by_cases hterm : pollTerminal (statuses i) = true
        · simp [hterm] at h
        · simp [eq_false_of_ne_true hterm] at h
          rcases h with h | h
          · exact h
          · exact ih (i + 1) d h

theorem pollTraceAux_never_counts (statuses : Nat → String)
    (hnever : ∀ n, pollTerminal (statuses n) = false) :
    ∀ fuel i,
      ((pollTraceAux statuses fuel i).filter PollEvent.isSleep).length = fuel ∧
      ((pollTraceAux statuses fuel i).filter PollEvent.isDescribe).length = fuel := by
  intro fuel
  induction fuel with
  | zero => intro i; simp [pollTraceAux]
  | succ fuel ih =>
      intro i
      have := ih (i + 1)
      simp [pollTraceAux, hnever i, List.filter, PollEvent.isSleep, PollEvent.isDescribe,
        this.1, this.2]

/-! ## Claim C1 -/

/-- C1: every status-polling loop of the scale-to-zero notebook exits
exactly when the observed status string is "InService" or "Failed": a run
that breaks does so at the first terminal observation and returns that
status; if the status sequence is terminal at index n (and at no earlier
index) then any run with more than n iterations available breaks there; and
for a status sequence that is never terminal the loop does not break for
any number of iterations. -/
theorem C1_polling_loop_terminal (statuses : Nat → String) :
    (∀ fuel n st, pollLoop statuses fuel = some (n, st) →
        (st = "InService" ∨ st = "Failed") ∧ st = statuses n ∧
        ((List.range n).all fun j => !pollTerminal (statuses j)) = true) ∧
    (∀ n fuel, pollTerminal (statuses n) = true →
        ((List.range n).all fun j => !pollTerminal (statuses j)) = true →
        n < fuel → pollLoop statuses fuel = some (n, statuses n)) ∧
    ((∀ n, pollTerminal (statuses n) = false) →
        ∀ fuel, pollLoop statuses fuel = none) := by
  refine ⟨?_, ?_, ?_⟩
  · intro fuel n st h
    obtain ⟨hst, hterm, _, hfirst⟩ := pollLoopAux_some statuses fuel 0 n st h
    refine ⟨?_, hst, ?_⟩
    · rw [hst]
      simpa only [pollTerminal, Bool.or_eq_true, beq_iff_eq] using hterm
    · rw [List.all_eq_true]
      intro j hj
      rw [List.mem_range] at hj
      simp [hfirst j (Nat.zero_le j) hj]
  · intro n fuel hterm hall hlt
    apply pollLoopAux_reaches statuses fuel 0 n (Nat.zero_le n) (by omega) hterm
    intro j _ hjn
    rw [List.all_eq_true] at hall
    have := hall j (List.mem_range.mpr hjn)
    simpa using this
  · intro hnever fuel
    exact pollLoopAux_never statuses hnever fuel 0

/-- Witness for C1: with statuses Creating, Creating, InService, ... the
loop breaks at index 2 with "InService"; with statuses constantly
"Creating" it does not break in 7 iterations. -/
theorem C1_polling_loop_terminal_witness :
    pollLoop (fun n => if n < 2 then "Creating" else "InService") 10 = some (2, "InService") ∧
    ((List.range 2).all fun j =>
      !pollTerminal ((fun n => if n < 2 then "Creating" else "InService") j)) = true ∧
    pollLoop (fun _ => "Creating") 7 = none := by
  refine ⟨?_, by decide, ?_⟩
  · exact (C1_polling_loop_terminal (fun n => if n < 2 then "Creating" else "InService")).2.1
      2 10 (by decide) (by decide) (by decide)
  · exact (C1_polling_loop_terminal (fun _ => "Creating")).2.2 (fun _ => by decide) 7

/-! ## Claim C6 -/

/-- C6: in every iteration of the polling loops, the blocking delay in the
loop trace is the fixed constant 30 seconds, whatever the iteration index
and the observed statuses; and the loop imposes no iteration bound of its
own: for a never-terminal status sequence, a run of any size `fuel`
performs exactly `fuel` describe calls and `fuel` sleeps of 30 seconds. -/
theorem C6_polling_sleep_fixed (statuses : Nat → String) :
    (∀ fuel d, PollEvent.sleep d ∈ pollTrace statuses fuel → d = 30) ∧
    ((∀ n, pollTerminal (statuses n) = false) → ∀ fuel,
      ((pollTrace statuses fuel).filter PollEvent.isSleep).length = fuel ∧
      ((pollTrace statuses fuel).filter PollEvent.isDescribe).length = fuel) := by
  constructor
  · intro fuel d h
    exact pollTraceAux_sleep_30 statuses fuel 0 d h
  · intro hnever fuel
    exact pollTraceAux_never_counts statuses hnever fuel 0

/-- Witness for C6: a sleep event occurs in the concrete trace of two
never-terminal iterations and has duration 30; five iterations of fuel
produce exactly five sleeps and five describes. -/
theorem C6_polling_sleep_fixed_witness :
    PollEvent.sleep 30 ∈ pollTrace (fun _ => "Creating") 2 ∧ (30 : Nat) = 30 ∧
    ((pollTrace (fun _ => "Creating") 5).filter PollEvent.isSleep).length = 5 ∧
    ((pollTrace (fun _ => "Creating") 5).filter PollEvent.isDescribe).length = 5 := by
  refine ⟨by decide, ?_, ?_, ?_⟩
  · exact (C6_polling_sleep_fixed (fun _ => "Creating")).1 2 30 (by decide)
  · exact ((C6_polling_sleep_fixed (fun _ => "Creating")).2 (fun _ => by decide) 5).1
  · exact ((C6_polling_sleep_fixed (fun _ => "Creating")).2 (fun _ => by decide) 5).2

/-! ## Claim C4 -/

/-- C4: in each streaming-response parsing loop, a stream fragment whose
JSON decoding fails is skipped and processing resumes with the next
fragment: in the part_000 token loop the iteration returns normally with
the state (token_count, first_token_received, printed output) exactly as it
was before the failing fragment, and the loop continues on the remaining
lines; in the NIM postprocessing loops the iteration returns normally with
the printed output unchanged and the accumulated data advanced past the
failing fragment, and the inner while loop continues from there. -/
theorem C4_json_decode_failure_skipped :
    (∀ (parse : String → Except String JValue) (st : StreamState) (line : String)
        (err : String) (rest : List String),
      strStartsWith line "data: " = true →
      parse (line.drop 6) = Except.error err →
      processLine parse st line = Except.ok st ∧
      processStream parse st (line :: rest) = processStream parse st rest) ∧
    (∀ (parse : String → Except String JValue) (st : AccumState)
        (startIdx endFound : Nat) (err : String) (fuel : Nat),
      strFind st.accumulated startMarker = some startIdx →
      strFind st.accumulated endMarker = some endFound →
      parse (strSlice st.accumulated (startIdx + startMarker.length)
        (endFound + endMarker.length)) = Except.error err →
      accumIter parse st =
        ({ accumulated := strDropFrom st.accumulated (endFound + endMarker.length),
           printed := st.printed }, none) ∧
      processAccum parse (fuel + 1) st =
        processAccum parse fuel
          { accumulated := strDropFrom st.accumulated (endFound + endMarker.length),
            printed := st.printed }) := by
  constructor
  · intro parse st line err rest hstart hparse
    have hline : processLine parse st line = Except.ok st := by
      simp [processLine, hstart, hparse]
    exact ⟨hline, by simp [processStream, hline]⟩
  · intro parse st startIdx endFound err fuel h1 h2 hparse
    have hiter : accumIter parse st =
        ({ accumulated := strDropFrom st.accumulated (endFound + endMarker.length),
           printed := st.printed }, none) := by
      simp [accumIter, h1, h2, hparse]
    refine ⟨hiter, ?_⟩
    have hcond : accumCond st.accumulated = true := by
      simp [accumCond, strContainsSub, h1, h2]
    simp [processAccum, hcond, hiter]

/-- Witness for C4: a concrete failing fragment in each loop.  In part_000
the line `data: notjson` fails to parse and the state is untouched; in the
NIM loop the accumulated string holds one complete fragment that fails to
parse, the printed list stays empty and the accumulated data advances to
the empty string. -/
theorem C4_json_decode_failure_skipped_witness :
    (strStartsWith "data: notjson" "data: " = true ∧
      processLine (fun _ => Except.error "Expecting value") initialStreamState
        "data: notjson" = Except.ok initialStreamState ∧
      processStream (fun _ => Except.error "Expecting value") initialStreamState
        ["data: notjson"] = Except.ok initialStreamState) ∧
    (strFind "data:X\"finish_reason\":null\x7d]\x7d" startMarker = some 0 ∧
      strFind "data:X\"finish_reason\":null\x7d]\x7d" endMarker = some 6 ∧
      accumIter (fun _ => Except.error "Expecting value")
        { accumulated := "data:X\"finish_reason\":null\x7d]\x7d", printed := [] } =
        ({ accumulated := "", printed := [] }, none)) := by
  refine ⟨⟨by decide, ?_, ?_⟩, by decide, by decide, ?_⟩
  · exact ((C4_json_decode_failure_skipped.1 (fun _ => Except.error "Expecting value")
      initialStreamState "data: notjson" "Expecting value" []) (by decide) rfl).1
  · exact ((C4_json_decode_failure_skipped.1 (fun _ => Except.error "Expecting value")
      initialStreamState "data: notjson" "Expecting value" []) (by decide) rfl).2
  · have h := (C4_json_decode_failure_skipped.2 (fun _ => Except.error "Expecting value")
      { accumulated := "data:X\"finish_reason\":null\x7d]\x7d", printed := [] }
      0 6 "Expecting value" 0 (by decide) (by decide) rfl).1
    simpa using h

/-! ## Claim C3 -/

/-- C3 counterexample: create_eval_files (part_003) catches an exception
that is neither a not-found exception nor a JSONDecodeError and continues.
On the concrete input file line with an empty question string,
create_payload raises ValueError("Please provide a non-empty prompt."); the
`except Exception as e` handler catches it, prints the error message, and
the function still prints its completion message and returns normally - the
exception does not propagate and does not terminate the cell. -/
theorem C3_counterexample :
    create_eval_files (fun _ _ => Except.ok "") (fun _ => Except.error "x") "endpoint"
        "out.jsonl" [JValue.obj [("question", JValue.str "")]] =
      { written := [],
        printedMessages := ["An error occurred: Please provide a non-empty prompt.",
                            "Created Model Outputs File: out.jsonl"],
        returnValue := none } := by
  rfl

/-- C3 amended: besides the not-found handlers on the deregistration calls
and the JSONDecodeError skips in the stream parsing, three further handlers
catch an exception and continue: the ValueError fallback around
get_execution_role in part_000, the catch-all handler of create_eval_files
in part_003 (which prints the error and continues to the completion
message), and the catch-all handler around the NIM streaming loop body in
part_004/part_005 (which prints the error and continues with the next
event); apart from these, an exception propagates and aborts the cell, as
the part_000 token streaming loop shows for any exception of its try body
other than a JSONDecodeError. -/
theorem C3_exception_handlers (m arn : String) :
    resolveRole (Except.error (PyExc.valueError m)) arn = Except.ok arn ∧
    (∀ (invokeEndpoint : String → JValue → Except PyExc String)
        (parse : String → Except String JValue) (endpointName f : String)
        (lines : List JValue) (e : PyExc) (w : List JValue),
      evalLoop invokeEndpoint parse endpointName [] lines = (w, some e) →
      create_eval_files invokeEndpoint parse endpointName f lines =
        { written := w,
          printedMessages := ["An error occurred: " ++ PyExc.message e,
                              "Created Model Outputs File: " ++ f],
          returnValue := none }) ∧
    (∀ (parse : String → Except String JValue) (fuel : Nat) (st st2 : AccumState)
        (e : PyExc) (payload : String),
      payload.isEmpty = false →
      processAccum parse fuel { st with accumulated := st.accumulated ++ payload } =
        (st2, some e) →
      processEvent parse fuel st payload =
        { st2 with printed := st2.printed ++
            [JValue.str ("\nError processing event: " ++ PyExc.message e)] }) ∧
    (∀ (parse : String → Except String JValue) (st : StreamState) (line : String)
        (rest : List String) (e : PyExc),
      processLine parse st line = Except.error e →
      processStream parse st (line :: rest) = Except.error e) := by
  refine ⟨rfl, ?_, ?_, ?_⟩
  · intro i p en f lines e w h
    simp [create_eval_files, h]
  · intro p fuel st st2 e payload hpayload h
    simp [processEvent, hpayload, h]
  · intro p st line rest e h
    simp [processStream, h]

/-- Witness for C3 amended: concrete runs exercising each handler -
create_eval_files swallows a ValueError, processEvent swallows an
AttributeError of the content extraction and prints the error message, and
the part_000 loop propagates a TypeError uncaught. -/
theorem C3_exception_handlers_witness :
    evalLoop (fun _ _ => Except.ok "") (fun _ => Except.error "x") "endpoint" []
        [JValue.obj [("question", JValue.str "")]] =
      ([], some (PyExc.valueError "Please provide a non-empty prompt.")) ∧
    create_eval_files (fun _ _ => Except.ok "") (fun _ => Except.error "x") "endpoint"
        "out.jsonl" [JValue.obj [("question", JValue.str "")]] =
      { written := [],
        printedMessages := ["An error occurred: Please provide a non-empty prompt.",
                            "Created Model Outputs File: out.jsonl"],
        returnValue := none } ∧
    processEvent (fun _ => Except.ok (JValue.num 1)) 1 { accumulated := "", printed := [] }
        "data:1\"finish_reason\":null\x7d]\x7d" =
      { accumulated := "",
        printed := [JValue.str ("\nError processing event: AttributeError")] } ∧
    processStream (fun _ => Except.ok (JValue.num 1)) initialStreamState ["data: 1"] =
      Except.error PyExc.typeError := by
  refine ⟨rfl, ?_, ?_, ?_⟩
  · exact (C3_exception_handlers "m" "arn").2.1 (fun _ _ => Except.ok "")
      (fun _ => Except.error "x") "endpoint" "out.jsonl"
      [JValue.obj [("question", JValue.str "")]]
      (PyExc.valueError "Please provide a non-empty prompt.") [] rfl
  · have h := (C3_exception_handlers "m" "arn").2.2.1 (fun _ => Except.ok (JValue.num 1)) 1
      { accumulated := "", printed := [] }
      { accumulated := "", printed := [] } PyExc.attributeError
      "data:1\"finish_reason\":null\x7d]\x7d" (by decide) (by rfl)
    simpa using h
  · exact (C3_exception_handlers "m" "arn").2.2.2 (fun _ => Except.ok (JValue.num 1))
      initialStreamState "data: 1" [] PyExc.typeError rfl

/-! ## Claim C10 -/

/-- C10: create_eval_files is annotated to return str but has no return
statement on any path, so for every input it returns Python None after
printing the completion message; consequently quantized_model_output_file
and base_model_output_file are bound to None, not to the model-outputs
file names. -/
theorem C10_create_eval_files_returns_none
    (invokeEndpoint : String → JValue → Except PyExc String)
    (parse : String → Except String JValue) (endpointName f : String)
    (lines : List JValue) :
    (create_eval_files invokeEndpoint parse endpointName f lines).returnValue = none ∧
    (create_eval_files invokeEndpoint parse endpointName f lines).printedMessages.getLast? =
      some ("Created Model Outputs File: " ++ f) ∧
    quantized_model_output_file invokeEndpoint parse endpointName lines = none ∧
    base_model_output_file invokeEndpoint parse endpointName lines = none := by
  refine ⟨rfl, ?_, rfl, rfl⟩
  cases hexc : (evalLoop invokeEndpoint parse endpointName [] lines).2 <;>
    simp [create_eval_files, hexc, List.getLast?]

/-! ## Claim C5 -/

/-- C5: in the scale-to-zero cleanup cell, each of
deregister_scalable_target, delete_alarms and delete_scaling_policy is
individually guarded: a not-found outcome of a call (ObjectNotFoundException
for the first and third, ResourceNotFoundException for the second) is caught
and its message printed; when each call succeeds or raises its not-found
exception all three are attempted and nothing propagates; and any other
exception from one of these calls propagates out of the cell. -/
theorem C5_cleanup_guards (rid an pn : String) :
    (∀ r1 r2 r3 : CallOutcome,
      (r1 = CallOutcome.ok ∨ r1 = CallOutcome.objectNotFound) →
      (r2 = CallOutcome.ok ∨ r2 = CallOutcome.resourceNotFound) →
      (r3 = CallOutcome.ok ∨ r3 = CallOutcome.objectNotFound) →
      (autoscalingCleanupCell rid an pn r1 r2 r3).attempted =
        ["deregister_scalable_target", "delete_alarms", "delete_scaling_policy"] ∧
      (autoscalingCleanupCell rid an pn r1 r2 r3).raised = none) ∧
    (∀ r2 r3 : CallOutcome,
      ("Scalable target for [b]" ++ rid ++ "[/b] not found!.") ∈
        (autoscalingCleanupCell rid an pn CallOutcome.objectNotFound r2 r3).printed) ∧
    (∀ r1 r3 : CallOutcome, (r1 = CallOutcome.ok ∨ r1 = CallOutcome.objectNotFound) →
      ("CloudWatch scale-out alarm [b]" ++ an ++ "[/b] not found.") ∈
        (autoscalingCleanupCell rid an pn r1 CallOutcome.resourceNotFound r3).printed) ∧
    (∀ r1 r2 : CallOutcome, (r1 = CallOutcome.ok ∨ r1 = CallOutcome.objectNotFound) →
      (r2 = CallOutcome.ok ∨ r2 = CallOutcome.resourceNotFound) →
      ("Scaling policy [i]" ++ pn ++ "[/i] not found.") ∈
        (autoscalingCleanupCell rid an pn r1 r2 CallOutcome.objectNotFound).printed) ∧
    (∀ (t : String) (r2 r3 : CallOutcome),
      (autoscalingCleanupCell rid an pn (CallOutcome.otherError t) r2 r3).raised =
        some (CallOutcome.otherError t) ∧
      (autoscalingCleanupCell rid an pn (CallOutcome.otherError t) r2 r3).attempted =
        ["deregister_scalable_target"]) ∧
    (∀ (t : String) (r1 r3 : CallOutcome),
      (r1 = CallOutcome.ok ∨ r1 = CallOutcome.objectNotFound) →
      (autoscalingCleanupCell rid an pn r1 (CallOutcome.otherError t) r3).raised =
        some (CallOutcome.otherError t)) ∧
    (∀ (t : String) (r1 r2 : CallOutcome),
      (r1 = CallOutcome.ok ∨ r1 = CallOutcome.objectNotFound) →
      (r2 = CallOutcome.ok ∨ r2 = CallOutcome.resourceNotFound) →
      (autoscalingCleanupCell rid an pn r1 r2 (CallOutcome.otherError t)).raised =
        some (CallOutcome.otherError t)) := by
  refine ⟨?_, ?_, ?_, ?_, ?_, ?_, ?_⟩
  · rintro r1 r2 r3 (rfl | rfl) (rfl | rfl) (rfl | rfl) <;> exact ⟨rfl, rfl⟩
  · intro r2 r3
    cases r2 <;> cases r3 <;> simp [autoscalingCleanupCell]
  · rintro r1 r3 (rfl | rfl) <;> cases r3 <;> simp [autoscalingCleanupCell]
  · rintro r1 r2 (rfl | rfl) (rfl | rfl) <;> simp [autoscalingCleanupCell]
  · intro t r2 r3
    exact ⟨rfl, rfl⟩
  · rintro t r1 r3 (rfl | rfl) <;> rfl
  · rintro t r1 r2 (rfl | rfl) (rfl | rfl) <;> rfl

/-- Witness for C5: a concrete run in which all three calls raise their
not-found exceptions - all three are attempted, the messages are printed
and nothing propagates - and a run in which delete_alarms raises another
exception, which propagates. -/
theorem C5_cleanup_guards_witness :
    (autoscalingCleanupCell "inference-component/ic" "my-alarm" "my-policy"
        CallOutcome.objectNotFound CallOutcome.resourceNotFound
        CallOutcome.objectNotFound).attempted =
      ["deregister_scalable_target", "delete_alarms", "delete_scaling_policy"] ∧
    (autoscalingCleanupCell "inference-component/ic" "my-alarm" "my-policy"
        CallOutcome.objectNotFound CallOutcome.resourceNotFound
        CallOutcome.objectNotFound).raised = none ∧
    ("Scalable target for [b]inference-component/ic[/b] not found!.") ∈
      (autoscalingCleanupCell "inference-component/ic" "my-alarm" "my-policy"
        CallOutcome.objectNotFound CallOutcome.resourceNotFound
        CallOutcome.objectNotFound).printed ∧
    (autoscalingCleanupCell "inference-component/ic" "my-alarm" "my-policy"
        CallOutcome.ok (CallOutcome.otherError "AccessDenied")
        CallOutcome.ok).raised = some (CallOutcome.otherError "AccessDenied") := by
  refine ⟨?_, ?_, ?_, ?_⟩
  · exact ((C5_cleanup_guards "inference-component/ic" "my-alarm" "my-policy").1
      CallOutcome.objectNotFound CallOutcome.resourceNotFound CallOutcome.objectNotFound
      (Or.inr rfl) (Or.inr rfl) (Or.inr rfl)).1
  · exact ((C5_cleanup_guards "inference-component/ic" "my-alarm" "my-policy").1
      CallOutcome.objectNotFound CallOutcome.resourceNotFound CallOutcome.objectNotFound
      (Or.inr rfl) (Or.inr rfl) (Or.inr rfl)).2
  · have h := (C5_cleanup_guards "inference-component/ic" "my-alarm" "my-policy").2.1
      CallOutcome.resourceNotFound CallOutcome.objectNotFound
    simpa using h
  · exact (C5_cleanup_guards "inference-component/ic" "my-alarm" "my-policy").2.2.2.2.2.1
      "AccessDenied" CallOutcome.ok CallOutcome.ok (Or.inl rfl)

/-! ## Claim C2 -/

/-- C2 counterexample: in the scale-to-zero notebook the cleanup sequence
is not the exact reverse of the creation sequence.  The scalable target is
created before the alarm, yet is also deleted (deregistered) before it, so
for this pair the resource created later is deleted later, not earlier; and
the delete list is not the reverse of the create list (the target-tracking
policy is never deleted at all). -/
theorem C2_counterexample :
    (scaleToZeroDeletes == scaleToZeroCreates.reverse) = false ∧
    resIdx (Res.scalableTarget "resource_id") scaleToZeroCreates <
      resIdx (Res.alarm "step_scaling_alarm_name") scaleToZeroCreates ∧
    resIdx (Res.scalableTarget "resource_id") scaleToZeroDeletes <
      resIdx (Res.alarm "step_scaling_alarm_name") scaleToZeroDeletes := by
  decide

/-- C2 amended: the multi-adapter notebook deletes its resources in the
exact reverse of their creation order, and the scale-to-zero notebook
deletes its model-hosting resources (inference component, endpoint,
endpoint configuration) in reverse creation order; but the scale-to-zero
autoscaling cleanup deregisters the scalable target before deleting the
later-created alarm and step scaling policy, and never deletes the
target-tracking policy, so the cleanup sequence is not the exact reverse of
the creation sequence in every notebook. -/
theorem C2_cleanup_order :
    reverseCleanup multiAdapterCreates multiAdapterDeletes ∧
    scaleToZeroDeletes.filter isHostingRes =
      (scaleToZeroCreates.filter isHostingRes).reverse ∧
    Res.scalingPolicy "target_tracking_policy_name" ∈ scaleToZeroCreates ∧
    (scaleToZeroDeletes.contains (Res.scalingPolicy "target_tracking_policy_name")) = false := by
  decide

/-! ## Claim C7 -/

/-- C7 counterexample: the quantization evaluation notebook (part_003)
deploys an endpoint (two, in fact) and issues no delete call whatsoever
before it ends, so not every notebook tears down the resources it
created. -/
theorem C7_counterexample :
    Res.endpoint "base_predictor" ∈ part003Creates ∧ part003Deletes = [] := by
  decide

/-- C7 amended: every notebook except the quantization evaluation notebook
(part_003) issues a delete call for each resource it creates, with one
further exception: the scale-to-zero notebook never deletes its
target-tracking scaling policy.  part_003 deploys two endpoints and issues
no delete call at all. -/
theorem C7_teardown :
    (∀ r ∈ part000Creates, r ∈ part000Deletes) ∧
    (∀ r ∈ multiAdapterCreates, r ∈ multiAdapterDeletes) ∧
    (∀ r ∈ part004CreatesModelled, r ∈ part004Deletes) ∧
    (∀ r ∈ part005CreatesModelled, r ∈ part005Deletes) ∧
    (∀ r ∈ scaleToZeroCreates,
      (r == Res.scalingPolicy "target_tracking_policy_name") = false →
      r ∈ scaleToZeroDeletes) ∧
    (scaleToZeroDeletes.contains (Res.scalingPolicy "target_tracking_policy_name")) = false ∧
    part003Deletes = [] := by
  decide

/-- Witness for C7 amended: concrete resources of each notebook with their
membership hypotheses discharged. -/
theorem C7_teardown_witness :
    Res.endpoint "predictor" ∈ part000Creates ∧
    Res.endpoint "predictor" ∈ part000Deletes ∧
    Res.inferenceComponent "ic_ectsum_name" ∈ multiAdapterCreates ∧
    Res.inferenceComponent "ic_ectsum_name" ∈ multiAdapterDeletes ∧
    Res.scalingPolicy "step_scaling_policy_name" ∈ scaleToZeroCreates ∧
    (Res.scalingPolicy "step_scaling_policy_name" ==
      Res.scalingPolicy "target_tracking_policy_name") = false ∧
    Res.scalingPolicy "step_scaling_policy_name" ∈ scaleToZeroDeletes := by
  refine ⟨by decide, C7_teardown.1 _ (by decide), by decide,
    C7_teardown.2.1 _ (by decide), by decide, by decide,
    C7_teardown.2.2.2.2.1 _ (by decide) (by decide)⟩

/-! ## Claim C8 -/

/-- C8: the (ServiceNamespace, ResourceId, ScalableDimension, PolicyName)
identifier named by the cleanup delete_scaling_policy call of the
scale-to-zero notebook differs from the identifier under which the step
scaling policy was created exactly in the ScalableDimension component:
the policy is created under "sagemaker:inference-component:DesiredCopyCount"
while the delete call names "sagemaker:variant:DesiredInstanceCount", with
the other three components equal, so the deletion request does not name the
policy that was created. -/
theorem C8_delete_policy_dimension_mismatch (icName : String) :
    (stepScalingCreateId icName).scalableDimension =
      "sagemaker:inference-component:DesiredCopyCount" ∧
    (stepScalingDeleteId icName).scalableDimension =
      "sagemaker:variant:DesiredInstanceCount" ∧
    ((stepScalingDeleteId icName).scalableDimension ==
      (stepScalingCreateId icName).scalableDimension) = false ∧
    (stepScalingDeleteId icName).serviceNamespace =
      (stepScalingCreateId icName).serviceNamespace ∧
    (stepScalingDeleteId icName).resourceId = (stepScalingCreateId icName).resourceId ∧
    (stepScalingDeleteId icName).policyName = (stepScalingCreateId icName).policyName := by
  exact ⟨rfl, rfl, by simp [stepScalingCreateId, stepScalingDeleteId], rfl, rfl, rfl⟩

/-! ## Claim C9 -/

/-- Keys all drawn from the assigned-name list never match a key absent
from that list, so the namespace lookup fails. -/
theorem lookup_none_of_unassigned (key : String) :
    ∀ (ns : List (String × String)),
      (∀ p ∈ ns, multiAdapterAssignedNames.contains p.1 = true) →
      multiAdapterAssignedNames.contains key = false →
      ns.lookup key = none := by
  intro ns
  induction ns with
  | nil => intro _ _; rfl
  | cons p rest ih =>
      intro h hkey
      obtain ⟨k, v⟩ := p
      by_cases hk : key == k
      · exfalso
        have hkeq : key = k := by simpa using hk
        have hcontains := h (k, v) (List.mem_cons_self _ _)
        have htrue : multiAdapterAssignedNames.contains key = true := by
          rw [hkeq]; exact hcontains
        rw [htrue] at hkey
        simp at hkey
      · simp only [List.lookup, hk]
        exact ih (fun q hq => h q (List.mem_cons_of_mem _ hq)) hkey

/-- C9 counterexample: running the adapter re-upload cell in a namespace in
which every name the notebook ever binds is bound does not raise.  IPython
variable expansion fails to resolve new_prt_adapter_s3_uri, swallows the
failure, and hands the command to the shell with the literal unexpanded
placeholder - no NameError terminates the cell. -/
theorem C9_counterexample :
    (reuploadCell "my-bucket" (multiAdapterAssignedNames.map (fun n => (n, "v")))).raised =
      none ∧
    (reuploadCell "my-bucket" (multiAdapterAssignedNames.map (fun n => (n, "v")))).shellCommand =
      "aws s3 cp ./adapters/ectsum-adapter.tar.gz \x7bnew_prt_adapter_s3_uri\x7d" := by
  exact ⟨rfl, by decide⟩

/-- C9 amended: the re-upload cell interpolates new_prt_adapter_s3_uri, a
name that no cell of the multi-adapter notebook ever binds (the same cell
defines only new_ectsum_adapter_s3_uri), so for every execution in which
only notebook-bound names are in the namespace the expansion of the shell
command fails; IPython passes the command to the shell untransformed, with
the literal unexpanded placeholder, and the cell raises no NameError - the
upload simply never goes to the intended S3 URI. -/
theorem C9_reupload_unbound_name :
    multiAdapterAssignedNames.contains "new_prt_adapter_s3_uri" = false ∧
    (∀ (bucket : String) (ns : List (String × String)),
      (∀ p ∈ ns, multiAdapterAssignedNames.contains p.1 = true) →
      (reuploadCell bucket ns).raised = none ∧
      (reuploadCell bucket ns).shellCommand =
        "aws s3 cp ./adapters/ectsum-adapter.tar.gz \x7bnew_prt_adapter_s3_uri\x7d") := by
  refine ⟨by decide, ?_⟩
  intro bucket ns hns
  have hhead : (("new_prt_adapter_s3_uri" : String) == "new_ectsum_adapter_s3_uri") = false := by
    decide
  have htail : ns.lookup "new_prt_adapter_s3_uri" = none :=
    lookup_none_of_unassigned "new_prt_adapter_s3_uri" ns hns (by decide)
  have hlook : (("new_ectsum_adapter_s3_uri",
      "s3://" ++ bucket ++ "/lora-adapters/new-ectsum-adapter.tar.gz") :: ns).lookup
      "new_prt_adapter_s3_uri" = none := by
    simp only [List.lookup, hhead]
    exact htail
  refine ⟨rfl, ?_⟩
  simp only [reuploadCell, varExpand, reuploadCmd, renderExpanded, hlook]
  decide

/-- Witness for C9 amended: a one-entry namespace drawn from the bound
names; the cell completes without raising and the shell receives the
unexpanded command. -/
theorem C9_reupload_unbound_name_witness :
    ([(("bucket" : String), ("b" : String))].all
      (fun p => multiAdapterAssignedNames.contains p.1)) = true ∧
    (reuploadCell "b" [("bucket", "b")]).raised = none ∧
    (reuploadCell "b" [("bucket", "b")]).shellCommand =
      "aws s3 cp ./adapters/ectsum-adapter.tar.gz \x7bnew_prt_adapter_s3_uri\x7d" := by
  refine ⟨by decide, ?_, ?_⟩
  · exact (C9_reupload_unbound_name.2 "b" [("bucket", "b")] (by decide)).1
  · exact (C9_reupload_unbound_name.2 "b" [("bucket", "b")] (by decide)).2

end SMHosting
